import Mathlib

/-!
Verification development for the MQTT-to-Supabase bridge service
(`mqtt-streamer.py`).

The embedding models the message-dispatch pipeline and the connection
supervisor of the bridge:

* decoded JSON payloads as an inductive `Json` value (objects as
  association lists, looked up first-match as a dict);
* the `StreamData` dataclass, with every payload-derived field carrying an
  arbitrary `Json` value, since the Python constructor performs no type
  checking, and `created_at` an opaque string supplied at construction
  time (the code calls `datetime.utcnow().isoformat()`);
* `DatabaseManager.store_data` over an abstract underlying store
  `exec : StreamData → Except String Json`, standing for the Supabase
  `insert(...).execute()` call, which may raise;
* `MQTTBridge._handle_data_message`, `_handle_debug_message` and
  `_on_message`, each returning an explicit outcome together with the list
  of records passed to the storage insert, mirroring the `try/except`
  structure of the source (a Python computation that may raise is embedded
  as `Except PyError`);
* `MQTTBridge._on_connect` and the reconnect loop of `MQTTBridge.start`
  as an event-trace function over an environment describing, per
  iteration, whether the connect call or the blocking receive loop raises.

`json.loads` and the transport are external library code, so byte decoding
is an abstract parameter `decode : String → Except String Json`.
-/

/-- A decoded JSON value, as produced by `json.loads`.  Objects are
association lists with first-match lookup (keys of a Python dict are
unique, so first-match agrees with dict access). -/
inductive Json where
  | null : Json
  | bool (b : Bool) : Json
  | num (n : Int) : Json
  | str (s : String) : Json
  | arr (elems : List Json) : Json
  | obj (fields : List (String × Json)) : Json

/-- Dict key access: first binding of `k` in the association list. -/
def jsonLookup (fields : List (String × Json)) (k : String) : Option Json :=
  match fields with
  | [] => none
  | (k₀, v) :: rest => if k₀ = k then some v else jsonLookup rest k

/-- `dict.get(k, d)`: the binding of `k`, or the default `d` when absent. -/
def jsonGetD (fields : List (String × Json)) (k : String) (d : Json) : Json :=
  (jsonLookup fields k).getD d

/-- The `StreamData` dataclass (source lines 64–85).  The payload-derived
fields hold arbitrary `Json` values: the Python constructor validates
presence of keys only, never the type of the values.  `created_at` is the
string the default factory produced at construction time. -/
structure StreamData where
  stream_id : Json
  frame_id : Json
  device_id : Json
  timestamp : Json
  timeout : Json
  image_data : Json
  metadata : Json
  created_at : String

/-- The Python exceptions the handlers can raise in the embedded
fragment: `KeyError` on a missing dict key, `TypeError` on indexing a
non-dict with a string key, `AttributeError` on calling `.get` on a
non-dict. -/
inductive PyError where
  | keyError (k : String) : PyError
  | typeError : PyError
  | attributeError : PyError
deriving DecidableEq

/-- The body of the `StreamData(...)` construction inside
`MQTTBridge._handle_data_message` (source lines 243–251).  Python
evaluates the constructor arguments left to right, so the first missing
key raises its `KeyError`; indexing a non-dict payload with a string key
raises `TypeError`.  `metadata` uses `payload.get("metadata", {})` and
never raises; `now` is the creation-time string. -/
def buildStreamData (payload : Json) (now : String) : Except PyError StreamData :=
  match payload with
  | Json.obj fields =>
    match jsonLookup fields "stream_id" with
    | none => Except.error (PyError.keyError "stream_id")
    | some sid =>
      match jsonLookup fields "frame_id" with
      | none => Except.error (PyError.keyError "frame_id")
      | some fid =>
        match jsonLookup fields "device_id" with
        | none => Except.error (PyError.keyError "device_id")
        | some did =>
          match jsonLookup fields "timestamp" with
          | none => Except.error (PyError.keyError "timestamp")
          | some ts =>
            match jsonLookup fields "timeout" with
            | none => Except.error (PyError.keyError "timeout")
            | some tout =>
              match jsonLookup fields "data" with
              | none => Except.error (PyError.keyError "data")
              | some dat =>
                Except.ok
                  { stream_id := sid
                    frame_id := fid
                    device_id := did
                    timestamp := ts
                    timeout := tout
                    image_data := dat
                    metadata := jsonGetD fields "metadata" (Json.obj [])
                    created_at := now }
  | _ => Except.error PyError.typeError

/-- `DatabaseManager.store_data` (source lines 117–134): calls the
underlying Supabase insert (`exec`), returns `True` when it returns and
`False` when it raises; the `except Exception` clause converts every
underlying error into the `False` outcome. -/
def store_data (exec : StreamData → Except String Json) (data : StreamData) : Bool :=
  match exec data with
  | Except.ok _ => true
  | Except.error _ => false

/-- Outcome of `MQTTBridge._handle_data_message` on one decoded payload. -/
inductive DataResult where
  | stored (r : StreamData) : DataResult
  | storeFailed (r : StreamData) : DataResult
  | missingField (k : String) : DataResult
  | handlingError (e : PyError) : DataResult

/-- `MQTTBridge._handle_data_message` (source lines 236–259).  Returns the
outcome together with the list of records passed to
`DatabaseManager.store_data`, in call order.  The `except KeyError` clause
logs the missing field; the `except Exception` clause logs any other
error; in both cases no record is built and storage is not called. -/
def handle_data_message (exec : StreamData → Except String Json) (now : String)
    (payload : Json) : DataResult × List StreamData :=
  match buildStreamData payload now with
  | Except.ok r =>
    if store_data exec r then (DataResult.stored r, [r])
    else (DataResult.storeFailed r, [r])
  | Except.error (PyError.keyError k) => (DataResult.missingField k, [])
  | Except.error e => (DataResult.handlingError e, [])

/-- `MQTTBridge._handle_debug_message` (source lines 261–267):
`payload.get("meta", {})` is logged at debug level; on a non-dict payload
the `.get` attribute access raises `AttributeError` (caught by the caller). -/
def handle_debug_message (payload : Json) : Except PyError Json :=
  match payload with
  | Json.obj fields => Except.ok (jsonGetD fields "meta" (Json.obj []))
  | _ => Except.error PyError.attributeError

/-- The `TopicType` enumeration (source lines 44–47). -/
inductive TopicType where
  | DATA : TopicType
  | DEBUG : TopicType
deriving DecidableEq

/-- `TopicType.value`: the topic string of each enumeration member. -/
def TopicType.value : TopicType → String
  | TopicType.DATA => "device/data"
  | TopicType.DEBUG => "device/debug"

/-- Iteration order of the `TopicType` enumeration (definition order). -/
def TopicType.members : List TopicType := [TopicType.DATA, TopicType.DEBUG]

/-- The configured subscription list
`[(topic.value, 1) for topic in TopicType]` (source line 159). -/
def mqttTopics : List (String × Nat) :=
  TopicType.members.map (fun t => (t.value, 1))

/-- Outcome of `MQTTBridge._on_message` on one delivered message. -/
inductive MsgOutcome where
  | dataHandled (r : DataResult) : MsgOutcome
  | debugLogged (meta : Json) : MsgOutcome
  | ignored : MsgOutcome
  | decodeError (e : String) : MsgOutcome
  | processingError (e : PyError) : MsgOutcome

/-- Topic routing of `MQTTBridge._on_message` after a successful decode
(source lines 224–234): the data topic goes to `handle_data_message`, the
debug topic to `handle_debug_message` (whose `AttributeError` on a
non-dict payload is caught by the `except Exception` clause and only
logged), and any other topic falls through and is ignored. -/
def dispatch (exec : StreamData → Except String Json) (now : String)
    (topic : String) (payload : Json) : MsgOutcome × List StreamData :=
  if topic = TopicType.DATA.value then
    let res := handle_data_message exec now payload
    (MsgOutcome.dataHandled res.1, res.2)
  else if topic = TopicType.DEBUG.value then
    match handle_debug_message payload with
    | Except.ok m => (MsgOutcome.debugLogged m, [])
    | Except.error e => (MsgOutcome.processingError e, [])
  else (MsgOutcome.ignored, [])

/-- `MQTTBridge._on_message` (source lines 209–234).  `decode` stands for
`json.loads(msg.payload.decode())`, external library code; its failure is
the `except json.JSONDecodeError` branch, which logs the decode error and
produces nothing.  The callback is a total function: every error path is
an explicit outcome, mirroring the `try/except` clauses that keep any
per-message error from propagating to the transport loop. -/
def on_message (exec : StreamData → Except String Json)
    (decode : String → Except String Json) (now : String)
    (topic : String) (payload : String) : MsgOutcome × List StreamData :=
  match decode payload with
  | Except.error e => (MsgOutcome.decodeError e, [])
  | Except.ok p => dispatch exec now topic p

/-- One message as delivered by the transport: topic, raw payload, and the
creation-time string in effect when the callback ran. -/
structure InboundMsg where
  topic : String
  payload : String
  now : String

/-- The receive loop delivers each inbound message to `on_message` in
order; the callback holds no state across calls, so a session's processing
is the pointwise image of the delivered sequence. -/
def processMessages (exec : StreamData → Except String Json)
    (decode : String → Except String Json) (msgs : List InboundMsg) :
    List (MsgOutcome × List StreamData) :=
  msgs.map (fun m => on_message exec decode m.now m.topic m.payload)

/-- `MQTTBridge._on_connect` (source lines 186–207): on acknowledgment
code 0 it issues one subscribe call for the configured topic list and logs
it (`some topics`); on any other code it logs an error and subscribes to
nothing (`none`). -/
def on_connect (topics : List (String × Nat)) (rc : Int) :
    Option (List (String × Nat)) :=
  if rc = 0 then some topics else none

/-- What the external world does to one iteration of the `while True` loop
in `MQTTBridge.start`: the connect call raises, or connect succeeds and
the blocking receive loop raises, returns, or blocks forever. -/
inductive IterOutcome where
  | connectRaises (e : String) : IterOutcome
  | loopRaises (e : String) : IterOutcome
  | loopReturns : IterOutcome
  | loopBlocks : IterOutcome
deriving DecidableEq

/-- Observable events of one loop iteration. -/
inductive StartEvent where
  | connectAttempt : StartEvent
  | loopEntered : StartEvent
  | errorLogged (e : String) : StartEvent
  | sleepSecs (n : Nat) : StartEvent
deriving DecidableEq

/-- Events of one iteration of `MQTTBridge.start` (source lines 275–293):
every iteration attempts a connect; when the connect call or the receive
loop raises, the `except Exception` clause logs the error and sleeps a
fixed 5 seconds before the `while True` loop re-enters the connect. -/
def iterEvents : IterOutcome → List StartEvent
  | IterOutcome.connectRaises e =>
    [StartEvent.connectAttempt, StartEvent.errorLogged e, StartEvent.sleepSecs 5]
  | IterOutcome.loopRaises e =>
    [StartEvent.connectAttempt, StartEvent.loopEntered,
     StartEvent.errorLogged e, StartEvent.sleepSecs 5]
  | IterOutcome.loopReturns => [StartEvent.connectAttempt, StartEvent.loopEntered]
  | IterOutcome.loopBlocks => [StartEvent.connectAttempt, StartEvent.loopEntered]

/-- An iteration whose receive loop blocks forever ends the trace. -/
def isBlocking : IterOutcome → Bool
  | IterOutcome.loopBlocks => true
  | _ => false

/-- An iteration in which the connect call or the receive loop raises. -/
def isFailure : IterOutcome → Bool
  | IterOutcome.connectRaises _ => true
  | IterOutcome.loopRaises _ => true
  | _ => false

/-- Whether some iteration before `n` blocked forever, so that iteration
`n` of the `while True` loop is never reached. -/
def haltedBy (env : Nat → IterOutcome) : Nat → Bool
  | 0 => false
  | n + 1 => haltedBy env n || isBlocking (env n)

/-- The event trace of the first `n` iterations of the `while True` loop
of `MQTTBridge.start` under environment `env`; an iteration contributes no
events once an earlier receive loop blocked forever. -/
def startTrace (env : Nat → IterOutcome) : Nat → List StartEvent
  | 0 => []
  | n + 1 =>
    startTrace env n ++ (if haltedBy env n then [] else iterEvents (env n))

/-- Whether an event is a connect attempt. -/
def isAttempt : StartEvent → Bool
  | StartEvent.connectAttempt => true
  | _ => false

/-- Number of connect attempts in a trace. -/
def countAttempts (tr : List StartEvent) : Nat :=
  (tr.filter isAttempt).length

/-- The required keys of a data payload, in the order the `StreamData(...)`
constructor arguments read them (source lines 244–249). -/
def requiredFields : List String :=
  ["stream_id", "frame_id", "device_id", "timestamp", "timeout", "data"]

/- ### Concrete fixtures -/

/-- The decoded data payload of concrete scenario A of the spec. -/
def scenarioAFields : List (String × Json) :=
  [("stream_id", Json.str "s1"), ("frame_id", Json.str "f1"),
   ("device_id", Json.str "d1"), ("timestamp", Json.str "2024-12-03T10:00:00Z"),
   ("timeout", Json.num 30), ("data", Json.str "QUJD")]

/-- The record scenario A must produce, at creation time `"T0"`. -/
def scenarioARecord : StreamData :=
  ⟨Json.str "s1", Json.str "f1", Json.str "d1",
   Json.str "2024-12-03T10:00:00Z", Json.num 30, Json.str "QUJD",
   Json.obj [], "T0"⟩

/-- A data payload whose six required keys are all present but bound to
values of the wrong types (the handler checks presence only). -/
def illTypedFields : List (String × Json) :=
  [("stream_id", Json.num 7), ("frame_id", Json.bool true),
   ("device_id", Json.null), ("timestamp", Json.num 99),
   ("timeout", Json.str "thirty"), ("data", Json.num 5),
   ("metadata", Json.str "not-a-dict")]

/-- The record built from `illTypedFields` at creation time `"T0"`. -/
def illTypedRecord : StreamData :=
  ⟨Json.num 7, Json.bool true, Json.null, Json.num 99,
   Json.str "thirty", Json.num 5, Json.str "not-a-dict", "T0"⟩

/-- A store whose underlying insert call always returns. -/
def execAccept : StreamData → Except String Json :=
  fun _ => Except.ok Json.null

/-- A decoder that always fails, as `json.loads` does on non-JSON text. -/
def decodeFail : String → Except String Json :=
  fun _ => Except.error "Expecting value"

/- ### Helper lemmas -/

/-- When every required key is present, `buildStreamData` returns the
record assembled verbatim from the bound values, with the optional
metadata defaulted. -/
theorem buildStreamData_eq_ok (fields : List (String × Json)) (now : String)
    (v₁ v₂ v₃ v₄ v₅ v₆ : Json)
    (h₁ : jsonLookup fields "stream_id" = some v₁)
    (h₂ : jsonLookup fields "frame_id" = some v₂)
    (h₃ : jsonLookup fields "device_id" = some v₃)
    (h₄ : jsonLookup fields "timestamp" = some v₄)
    (h₅ : jsonLookup fields "timeout" = some v₅)
    (h₆ : jsonLookup fields "data" = some v₆) :
    buildStreamData (Json.obj fields) now =
      Except.ok ⟨v₁, v₂, v₃, v₄, v₅, v₆,
        jsonGetD fields "metadata" (Json.obj []), now⟩ := by
  simp [buildStreamData, h₁, h₂, h₃, h₄, h₅, h₆]

/-- When some required key is absent, `buildStreamData` raises a
`KeyError` naming a key that is both required and absent (the first one in
constructor-argument order). -/
theorem buildStreamData_missing (fields : List (String × Json)) (now : String)
    (k : String) (hk : k ∈ requiredFields) (hmiss : jsonLookup fields k = none) :
    ∃ m, m ∈ requiredFields ∧ jsonLookup fields m = none ∧
      buildStreamData (Json.obj fields) now = Except.error (PyError.keyError m) := by
  cases h₁ : jsonLookup fields "stream_id" with
  | none =>
    exact ⟨"stream_id", by simp [requiredFields], h₁, by simp [buildStreamData, h₁]⟩
  | some v₁ =>
  cases h₂ : jsonLookup fields "frame_id" with
  | none =>
    exact ⟨"frame_id", by simp [requiredFields], h₂, by simp [buildStreamData, h₁, h₂]⟩
  | some v₂ =>
  cases h₃ : jsonLookup fields "device_id" with
  | none =>
    exact ⟨"device_id", by simp [requiredFields], h₃,
      by simp [buildStreamData, h₁, h₂, h₃]⟩
  | some v₃ =>
  cases h₄ : jsonLookup fields "timestamp" with
  | none =>
    exact ⟨"timestamp", by simp [requiredFields], h₄,
      by simp [buildStreamData, h₁, h₂, h₃, h₄]⟩
  | some v₄ =>
  cases h₅ : jsonLookup fields "timeout" with
  | none =>
    exact ⟨"timeout", by simp [requiredFields], h₅,
      by simp [buildStreamData, h₁, h₂, h₃, h₄, h₅]⟩
  | some v₅ =>
  cases h₆ : jsonLookup fields "data" with
  | none =>
    exact ⟨"data", by simp [requiredFields], h₆,
      by simp [buildStreamData, h₁, h₂, h₃, h₄, h₅, h₆]⟩
  | some v₆ =>
    exfalso
    simp only [requiredFields, List.mem_cons, List.not_mem_nil, or_false] at hk
    rcases hk with rfl | rfl | rfl | rfl | rfl | rfl <;> simp_all

/-- The creation-time argument only lands in `created_at`: building at one
time is building at another time with `created_at` overwritten. -/
theorem buildStreamData_created (payload : Json) (now₁ now₂ : String) :
    buildStreamData payload now₂ =
      Except.map (fun r => { r with created_at := now₂ })
        (buildStreamData payload now₁) := by
  cases payload with
  | obj fields =>
    simp only [buildStreamData]
    cases jsonLookup fields "stream_id" with
    | none => rfl
    | some v₁ =>
    cases jsonLookup fields "frame_id" with
    | none => rfl
    | some v₂ =>
    cases jsonLookup fields "device_id" with
    | none => rfl
    | some v₃ =>
    cases jsonLookup fields "timestamp" with
    | none => rfl
    | some v₄ =>
    cases jsonLookup fields "timeout" with
    | none => rfl
    | some v₅ =>
    cases jsonLookup fields "data" with
    | none => rfl
    | some v₆ => rfl
  | null => rfl
  | bool b => rfl
  | num n => rfl
  | str s => rfl
  | arr elems => rfl

/-- The records passed to storage by `handle_data_message` are exactly the
successfully built record, whatever the store then does. -/
theorem handle_data_inserts (exec : StreamData → Except String Json)
    (now : String) (payload : Json) :
    (handle_data_message exec now payload).2 =
      (match buildStreamData payload now with
       | Except.ok r => [r]
       | Except.error _ => []) := by
  cases hb : buildStreamData payload now with
  | ok r =>
    simp only [handle_data_message, hb]
    split <;> rfl
  | error e => cases e <;> simp [handle_data_message, hb]

/-- An iteration whose connect call or receive loop raised did not block. -/
theorem isFailure_not_blocking (o : IterOutcome) (h : isFailure o = true) :
    isBlocking o = false := by
  cases o <;> simp_all [isFailure, isBlocking]

/-- No iteration before `n` blocked, so iteration `n` is reached. -/
theorem haltedBy_eq_false (env : Nat → IterOutcome) (n : Nat)
    (h : ∀ k, k < n → isBlocking (env k) = false) : haltedBy env n = false := by
  induction n with
  | zero => rfl
  | succ m ih =>
    simp [haltedBy, ih (fun k hk => h k (Nat.lt_succ_of_lt hk)),
      h m (Nat.lt_succ_self m)]

/-- Every iteration's event list opens with exactly one connect attempt. -/
theorem countAttempts_iterEvents (o : IterOutcome) :
    countAttempts (iterEvents o) = 1 := by
  cases o <;> rfl

/-- Connect attempts add up across concatenated traces. -/
theorem countAttempts_append (a b : List StartEvent) :
    countAttempts (a ++ b) = countAttempts a + countAttempts b := by
  simp [countAttempts, List.filter_append]

/-- As long as no earlier iteration blocked, `n` loop iterations make
exactly `n` connect attempts. -/
theorem countAttempts_startTrace (env : Nat → IterOutcome) (n : Nat)
    (h : ∀ k, k + 1 < n → isBlocking (env k) = false) :
    countAttempts (startTrace env n) = n := by
  induction n with
  | zero => rfl
  | succ m ih =>
    have hb : haltedBy env m = false :=
      haltedBy_eq_false env m (fun k hk => h k (Nat.succ_lt_succ hk))
    simp [startTrace, countAttempts_append, hb, countAttempts_iterEvents,
      ih (fun k hk => h k (Nat.lt_succ_of_lt hk))]

/- ### Claim theorems -/

/-- C1: a Data-topic message whose decoded object binds all of stream_id,
frame_id, device_id, timestamp, timeout and data yields exactly one record
carrying those six values verbatim, with metadata the bound value when
present and the empty object when absent, and that record is passed to the
storage insert exactly once (the singleton insert trace). -/
theorem data_message_exact_record_insert_once
    (exec : StreamData → Except String Json) (now : String)
    (fields : List (String × Json)) (v₁ v₂ v₃ v₄ v₅ v₆ : Json)
    (h₁ : jsonLookup fields "stream_id" = some v₁)
    (h₂ : jsonLookup fields "frame_id" = some v₂)
    (h₃ : jsonLookup fields "device_id" = some v₃)
    (h₄ : jsonLookup fields "timestamp" = some v₄)
    (h₅ : jsonLookup fields "timeout" = some v₅)
    (h₆ : jsonLookup fields "data" = some v₆) :
    dispatch exec now TopicType.DATA.value (Json.obj fields) =
      (MsgOutcome.dataHandled
        (if store_data exec
            ⟨v₁, v₂, v₃, v₄, v₅, v₆, jsonGetD fields "metadata" (Json.obj []), now⟩
         then DataResult.stored
            ⟨v₁, v₂, v₃, v₄, v₅, v₆, jsonGetD fields "metadata" (Json.obj []), now⟩
         else DataResult.storeFailed
            ⟨v₁, v₂, v₃, v₄, v₅, v₆, jsonGetD fields "metadata" (Json.obj []), now⟩),
       [⟨v₁, v₂, v₃, v₄, v₅, v₆, jsonGetD fields "metadata" (Json.obj []), now⟩]) := by
  have hb := buildStreamData_eq_ok fields now v₁ v₂ v₃ v₄ v₅ v₆ h₁ h₂ h₃ h₄ h₅ h₆
  cases hs : store_data exec
      ⟨v₁, v₂, v₃, v₄, v₅, v₆, jsonGetD fields "metadata" (Json.obj []), now⟩ <;>
    simp [dispatch, handle_data_message, hb, hs]

/-- Witness for C1: concrete scenario A of the spec, with an accepting
store: the five envelope fields and the payload are carried verbatim,
metadata defaults to the empty object, and the insert trace is exactly the
one record. -/
theorem data_message_exact_record_insert_once_witness :
    jsonLookup scenarioAFields "stream_id" = some (Json.str "s1") ∧
    jsonLookup scenarioAFields "frame_id" = some (Json.str "f1") ∧
    jsonLookup scenarioAFields "device_id" = some (Json.str "d1") ∧
    jsonLookup scenarioAFields "timestamp" = some (Json.str "2024-12-03T10:00:00Z") ∧
    jsonLookup scenarioAFields "timeout" = some (Json.num 30) ∧
    jsonLookup scenarioAFields "data" = some (Json.str "QUJD") ∧
    dispatch execAccept "T0" TopicType.DATA.value (Json.obj scenarioAFields) =
      (MsgOutcome.dataHandled (DataResult.stored scenarioARecord), [scenarioARecord]) :=
  ⟨rfl, rfl, rfl, rfl, rfl, rfl,
   data_message_exact_record_insert_once execAccept "T0" scenarioAFields
     (Json.str "s1") (Json.str "f1") (Json.str "d1")
     (Json.str "2024-12-03T10:00:00Z") (Json.num 30) (Json.str "QUJD")
     rfl rfl rfl rfl rfl rfl⟩

/-- C2: a Data-topic payload that decodes to an object missing at least
one required key is handled as a missing-field outcome naming a key that
is indeed required and absent, with no record constructed and an empty
insert trace. -/
theorem data_message_missing_field_no_insert
    (exec : StreamData → Except String Json) (now : String)
    (fields : List (String × Json)) (k : String)
    (hk : k ∈ requiredFields) (hmiss : jsonLookup fields k = none) :
    ∃ m, m ∈ requiredFields ∧ jsonLookup fields m = none ∧
      handle_data_message exec now (Json.obj fields) =
        (DataResult.missingField m, []) := by
  obtain ⟨m, hm, hn, hb⟩ := buildStreamData_missing fields now k hk hmiss
  exact ⟨m, hm, hn, by simp [handle_data_message, hb]⟩

/-- Witness for C2: concrete scenario B of the spec, a payload with only
stream_id and frame_id. -/
theorem data_message_missing_field_no_insert_witness :
    "device_id" ∈ requiredFields ∧
    jsonLookup [("stream_id", Json.str "s1"), ("frame_id", Json.str "f1")]
      "device_id" = none ∧
    ∃ m, m ∈ requiredFields ∧
      jsonLookup [("stream_id", Json.str "s1"), ("frame_id", Json.str "f1")]
        m = none ∧
      handle_data_message execAccept "T0"
          (Json.obj [("stream_id", Json.str "s1"), ("frame_id", Json.str "f1")]) =
        (DataResult.missingField m, []) :=
  ⟨by decide, rfl,
   data_message_missing_field_no_insert execAccept "T0"
     [("stream_id", Json.str "s1"), ("frame_id", Json.str "f1")]
     "device_id" (by decide) rfl⟩

/-- C3: every Debug-topic payload, object or not, leaves an empty insert
trace; the outcome is only logged — the optional meta field on an object
payload, or the caught error on a non-object payload. -/
theorem debug_message_never_persisted (exec : StreamData → Except String Json)
    (now : String) (payload : Json) :
    (dispatch exec now TopicType.DEBUG.value payload).2 = [] ∧
    ((∃ m, (dispatch exec now TopicType.DEBUG.value payload).1 =
        MsgOutcome.debugLogged m) ∨
      (dispatch exec now TopicType.DEBUG.value payload).1 =
        MsgOutcome.processingError PyError.attributeError) := by
  have hne : TopicType.DEBUG.value ≠ TopicType.DATA.value := by decide
  cases payload
  case obj fields =>
    refine ⟨by simp [dispatch, hne, handle_debug_message],
      Or.inl ⟨jsonGetD fields "meta" (Json.obj []), ?_⟩⟩
    simp [dispatch, hne, handle_debug_message]
  all_goals
    exact ⟨by simp [dispatch, hne, handle_debug_message],
      Or.inr (by simp [dispatch, hne, handle_debug_message])⟩

/-- C4: `store_data` is a total Boolean-valued operation for every record
and every behaviour of the underlying store: it returns `true` exactly
when the underlying insert returns, and `false` exactly when the
underlying insert raises — every underlying error becomes the `false`
outcome rather than a propagated exception. -/
theorem store_data_never_raises (exec : StreamData → Except String Json)
    (d : StreamData) :
    (store_data exec d = true ↔ ∃ v, exec d = Except.ok v) ∧
    (store_data exec d = false ↔ ∃ e, exec d = Except.error e) := by
  cases h : exec d <;> simp [store_data, h]

/-- C5: a session processes every delivered message: the outcome list is
as long as the delivered list, and the n-th outcome is exactly
`on_message` of the n-th message — so no decode failure, missing field, or
insert failure of an earlier message blocks, skips, or alters the handling
of a later one, and every callback returns an outcome rather than
propagating an error. -/
theorem message_processing_isolated (exec : StreamData → Except String Json)
    (decode : String → Except String Json) (msgs : List InboundMsg) :
    (processMessages exec decode msgs).length = msgs.length ∧
    ∀ n : Nat, (processMessages exec decode msgs)[n]? =
      (msgs[n]?).map (fun m => on_message exec decode m.now m.topic m.payload) := by
  refine ⟨by simp [processMessages], fun n => ?_⟩
  simp [processMessages, List.getElem?_map]

/-- C6: when the first N iterations of the supervisor loop fail (connect
raise or receive-loop raise), the trace of N+1 iterations still holds
exactly N+1 connect attempts — a further attempt after every failure, with
no bound on N — and every failing iteration logs the error and sleeps the
fixed 5 seconds before the next attempt. -/
theorem reconnect_unbounded_retry (env : Nat → IterOutcome) (N : Nat)
    (hfail : ∀ k, k < N → isFailure (env k) = true) :
    countAttempts (startTrace env (N + 1)) = N + 1 ∧
    ∀ k, k < N →
      StartEvent.sleepSecs 5 ∈ iterEvents (env k) ∧
      ∃ e, StartEvent.errorLogged e ∈ iterEvents (env k) := by
  constructor
  · exact countAttempts_startTrace env (N + 1)
      (fun k hk => isFailure_not_blocking (env k)
        (hfail k (Nat.lt_of_succ_lt_succ hk)))
  · intro k hk
    have h := hfail k hk
    cases ho : env k <;> rw [ho] at h
    case connectRaises e => exact ⟨by simp [iterEvents], e, by simp [iterEvents]⟩
    case loopRaises e => exact ⟨by simp [iterEvents], e, by simp [iterEvents]⟩
    all_goals simp [isFailure] at h

/-- Witness for C6: two consecutive connect failures still yield a third
connect attempt. -/
theorem reconnect_unbounded_retry_witness :
    countAttempts
      (startTrace (fun _ => IterOutcome.connectRaises "econnrefused") 3) = 3 :=
  (reconnect_unbounded_retry (fun _ => IterOutcome.connectRaises "econnrefused") 2
    (fun _ _ => rfl)).1

/-- C7: on acknowledgment code 0 the connect callback subscribes to
exactly the two enumeration topics, each at quality-of-service level 1;
on any non-zero code it subscribes to nothing. -/
theorem on_connect_subscribes_configured_topics :
    on_connect mqttTopics 0 = some [("device/data", 1), ("device/debug", 1)] ∧
    ∀ rc : Int, rc ≠ 0 → on_connect mqttTopics rc = none := by
  refine ⟨rfl, fun rc h => ?_⟩
  simp [on_connect, h]

/-- Witness for C7: a non-zero acknowledgment code issues no
subscription. -/
theorem on_connect_subscribes_configured_topics_witness :
    (5 : Int) ≠ 0 ∧ on_connect mqttTopics 5 = none :=
  ⟨by decide, on_connect_subscribes_configured_topics.2 5 (by decide)⟩

/-- C8: a payload the decoder rejects, on any topic, yields the
decode-error outcome with an empty insert trace — no record, no storage
call, no propagated failure. -/
theorem undecodable_payload_no_record (exec : StreamData → Except String Json)
    (decode : String → Except String Json) (now topic payload : String)
    (e : String) (h : decode payload = Except.error e) :
    on_message exec decode now topic payload = (MsgOutcome.decodeError e, []) := by
  simp [on_message, h]

/-- Witness for C8: non-JSON text on the data topic. -/
theorem undecodable_payload_no_record_witness :
    decodeFail "###not-json" = Except.error "Expecting value" ∧
    on_message execAccept decodeFail "T0" "device/data" "###not-json" =
      (MsgOutcome.decodeError "Expecting value", []) :=
  ⟨rfl, undecodable_payload_no_record execAccept decodeFail "T0" "device/data"
    "###not-json" "Expecting value" rfl⟩

/-- C9: classification is idempotent modulo creation time: handling the
same decoded data payload at two creation times yields insert traces that
agree record-for-record in every field, with only `created_at` replaced by
the later call's creation time. -/
theorem classification_idempotent_mod_created_at
    (exec : StreamData → Except String Json) (payload : Json)
    (now₁ now₂ : String) :
    (handle_data_message exec now₂ payload).2 =
      ((handle_data_message exec now₁ payload).2).map
        (fun r => { r with created_at := now₂ }) := by
  rw [handle_data_inserts, handle_data_inserts,
    buildStreamData_created payload now₁ now₂]
  cases buildStreamData payload now₁ with
  | ok r => rfl
  | error e => rfl

/-- C10: required fields are validated for presence only, never for type:
whatever `Json` values the six required keys are bound to, the record is
built with those values unchanged and passed to the storage insert. -/
theorem presence_only_validation
    (exec : StreamData → Except String Json) (now : String)
    (fields : List (String × Json)) (v₁ v₂ v₃ v₄ v₅ v₆ : Json)
    (h₁ : jsonLookup fields "stream_id" = some v₁)
    (h₂ : jsonLookup fields "frame_id" = some v₂)
    (h₃ : jsonLookup fields "device_id" = some v₃)
    (h₄ : jsonLookup fields "timestamp" = some v₄)
    (h₅ : jsonLookup fields "timeout" = some v₅)
    (h₆ : jsonLookup fields "data" = some v₆) :
    buildStreamData (Json.obj fields) now =
      Except.ok ⟨v₁, v₂, v₃, v₄, v₅, v₆,
        jsonGetD fields "metadata" (Json.obj []), now⟩ ∧
    (handle_data_message exec now (Json.obj fields)).2 =
      [⟨v₁, v₂, v₃, v₄, v₅, v₆, jsonGetD fields "metadata" (Json.obj []), now⟩] := by
  have hb := buildStreamData_eq_ok fields now v₁ v₂ v₃ v₄ v₅ v₆ h₁ h₂ h₃ h₄ h₅ h₆
  exact ⟨hb, by rw [handle_data_inserts, hb]⟩

/-- Witness for C10: a payload whose six required keys carry wrong-typed
values (a numeric stream id, a string timeout, a numeric data blob, a
non-object metadata) is still built verbatim and inserted. -/
theorem presence_only_validation_witness :
    jsonLookup illTypedFields "stream_id" = some (Json.num 7) ∧
    jsonLookup illTypedFields "frame_id" = some (Json.bool true) ∧
    jsonLookup illTypedFields "device_id" = some Json.null ∧
    jsonLookup illTypedFields "timestamp" = some (Json.num 99) ∧
    jsonLookup illTypedFields "timeout" = some (Json.str "thirty") ∧
    jsonLookup illTypedFields "data" = some (Json.num 5) ∧
    buildStreamData (Json.obj illTypedFields) "T0" = Except.ok illTypedRecord ∧
    (handle_data_message execAccept "T0" (Json.obj illTypedFields)).2 =
      [illTypedRecord] :=
  ⟨rfl, rfl, rfl, rfl, rfl, rfl,
   presence_only_validation execAccept "T0" illTypedFields
     (Json.num 7) (Json.bool true) Json.null (Json.num 99)
     (Json.str "thirty") (Json.num 5) rfl rfl rfl rfl rfl rfl⟩
